import Mathlib

/-
Shallow embedding of the `release_manager` repository core:
  * the snapshot-diff notification engine of `src/pages/notifications.py`
    (`compare_tickets`, `generate_notifications_from_comparison`),
  * the persistence operations of `src/database/db_manager.py`,
  * the scheduler, retention job and health monitor of
    `src/services/scheduler_service.py`.

Modelling conventions:
  * A Python ticket dict is a finite association list from field name to a
    value that is either a string or Python `None`; `none` in the inner
    `Option` models a stored `None`, while a missing association models an
    absent dict key.  `dict.get(field)` collapses the two (`dictGet`);
    `dict[field]` (`dlookup`) distinguishes them, `none` meaning a raised
    `KeyError`.
  * Timestamps are integers (seconds); SQLite string timestamp comparison
    is order-isomorphic to this on the data the program writes.
  * The blanket `try/except` blocks of the Python code are modelled by an
    explicit `errored`/`Except` result: an `Except.error` models an
    exception propagating out of the function, while a caught exception is
    modelled by the value the handler produces.
-/

namespace ReleaseManager

/-- A JIRA ticket as the notification-comparison code sees it: a Python dict
from field name to a value that is a string or Python `None`. -/
abbrev Ticket := List (String × Option String)

/-- A Python dict key obtained from a ticket's `key` field (the value of
that field, which in principle may itself be `None`). -/
abbrev TKey := Option String

/-- A ticket lookup dict as built by `generate_notifications_from_comparison`
(lines 92-93 of `src/pages/notifications.py`): ticket key to ticket. -/
abbrev Lookup := List (TKey × Ticket)

/-- Python dict subscript access `d[k]`: first binding wins (dict keys are
unique anyway); `none` models a raised `KeyError`. -/
def dlookup {α β : Type} [DecidableEq α] (k : α) : List (α × β) → Option β
  | [] => none
  | (k', v) :: rest => if k' = k then some v else dlookup k rest

/-- Python `d.get(field)` on a ticket: missing key and stored `None` both
come out as `none` (source lines 162-163). -/
def dictGet (t : Ticket) (field : String) : Option String :=
  (dlookup field t).join

/-- Normalisation of lines 166-167 of `src/pages/notifications.py`:
`value if value is not None else 'None'`. -/
def normalizeNone (v : Option String) : String :=
  v.getD "None"

/-- The watched fields, line 159 of `src/pages/notifications.py`. -/
def fields_to_check : List String :=
  ["status", "assignee", "priority", "summary"]

/-- One entry of the list returned by `compare_tickets`
(lines 170-174 of `src/pages/notifications.py`). -/
structure Change where
  field : String
  old_value : String
  new_value : String
deriving DecidableEq, Repr

/-- The function `compare_tickets` of `src/pages/notifications.py`
(lines 154-176): for each watched field, read both sides with `.get`,
normalise `None` to the sentinel string, and record a change when the
string representations differ. -/
def compare_tickets (previous_ticket current_ticket : Ticket) : List Change :=
  fields_to_check.filterMap fun field =>
    let old_value := normalizeNone (dictGet previous_ticket field)
    let new_value := normalizeNone (dictGet current_ticket field)
    if old_value ≠ new_value then some ⟨field, old_value, new_value⟩ else none

/-- A notification created by `generate_notifications_from_comparison`,
reduced to its distinguishing payload (notification type, ticket key, and
the metadata the code attaches: for `field_changed` the field and the two
values, plus the `ticket_summary` metadata entry in every case). -/
inductive Event where
  | new_ticket (ticket_key : TKey) (ticket_summary : Option String)
  | removed_ticket (ticket_key : TKey) (ticket_summary : Option String)
  | field_changed (ticket_key : TKey) (field old_value new_value : String)
      (ticket_summary : Option String)
deriving DecidableEq, Repr

/-- Phase 1 of `generate_notifications_from_comparison` (lines 97-108):
for every key of `current_lookup` absent from `previous_lookup`, emit a
`new_ticket` notification whose metadata reads
`current_lookup[ticket_key]['summary']` by subscript; a missing `summary`
key raises `KeyError` (second component `true`), aborting the loop. -/
def processNew (previous_lookup : Lookup) : Lookup → List Event × Bool
  | [] => ([], false)
  | (k, t) :: rest =>
    if (dlookup k previous_lookup).isSome then processNew previous_lookup rest
    else
      match dlookup "summary" t with
      | none => ([], true)
      | some s =>
        let r := processNew previous_lookup rest
        (Event.new_ticket k s :: r.1, r.2)

/-- Phase 2 of `generate_notifications_from_comparison` (lines 110-121):
for every key of `previous_lookup` absent from `current_lookup`, emit a
`removed_ticket` notification; the metadata reads
`previous_lookup[ticket_key]['summary']` by subscript, so a missing
`summary` key raises `KeyError` (second component `true`). -/
def processRemoved (current_lookup : Lookup) : Lookup → List Event × Bool
  | [] => ([], false)
  | (k, t) :: rest =>
    if (dlookup k current_lookup).isSome then processRemoved current_lookup rest
    else
      match dlookup "summary" t with
      | none => ([], true)
      | some s =>
        let r := processRemoved current_lookup rest
        (Event.removed_ticket k s :: r.1, r.2)

/-- Phase 3 of `generate_notifications_from_comparison` (lines 123-146):
for every key present in both lookups, emit one `field_changed`
notification per entry of `compare_tickets`; each emission reads
`current_ticket['summary']` by subscript for its metadata, so when the
change list is non-empty and the current ticket lacks a `summary` key the
first emission raises `KeyError` (second component `true`). -/
def processChanged (previous_lookup : Lookup) : Lookup → List Event × Bool
  | [] => ([], false)
  | (k, t) :: rest =>
    match dlookup k previous_lookup with
    | none => processChanged previous_lookup rest
    | some pt =>
      match compare_tickets pt t with
      | [] => processChanged previous_lookup rest
      | c :: cs =>
        match dlookup "summary" t with
        | none => ([], true)
        | some s =>
          let r := processChanged previous_lookup rest
          (((c :: cs).map fun ch =>
              Event.field_changed k ch.field ch.old_value ch.new_value s) ++ r.1,
           r.2)

/-- The three diff phases of `generate_notifications_from_comparison`
(lines 97-146) run in source order.  The surrounding `try/except`
(lines 77, 151-152) means a `KeyError` in one phase aborts the remaining
phases but keeps the notifications already created; the Bool records
whether such an exception occurred (it is caught and shown as an error,
and the run stops there). -/
def generate_events (previous_lookup current_lookup : Lookup) :
    List Event × Bool :=
  let r1 := processNew previous_lookup current_lookup
  if r1.2 then r1
  else
    let r2 := processRemoved current_lookup previous_lookup
    if r2.2 then (r1.1 ++ r2.1, true)
    else
      let r3 := processChanged previous_lookup current_lookup
      (r1.1 ++ r2.1 ++ r3.1, r3.2)

/-- Python dict insertion for the comprehension `{t['key']: t for t in ...}`:
an existing key keeps its position and gets the new value, a fresh key is
appended. -/
def dict_insert (acc : Lookup) (k : TKey) (t : Ticket) : Lookup :=
  if (dlookup k acc).isSome then
    acc.map fun p => if p.1 = k then (k, t) else p
  else acc ++ [(k, t)]

/-- Accumulator pass for `build_lookup`. -/
def build_lookup_from (acc : Lookup) : List Ticket → Option Lookup
  | [] => some acc
  | t :: rest =>
    match dlookup "key" t with
    | none => none
    | some k => build_lookup_from (dict_insert acc k t) rest

/-- The dict comprehensions of lines 92-93 of `src/pages/notifications.py`:
`{t['key']: t for t in tickets}`; `none` models the `KeyError` raised by a
ticket without a `key` entry. -/
def build_lookup (tickets : List Ticket) : Option Lookup :=
  build_lookup_from [] tickets

/-- Observable outcome of one `generate_notifications_from_comparison`
run: the notifications created, how many snapshot creations were issued,
the ticket data passed to the snapshot creation (baseline branch), and
whether an exception was caught by the handler of lines 151-152. -/
structure RunResult where
  events : List Event
  snapshots_created : Nat
  snapshot_data : Option (List Ticket)
  errored : Bool
deriving DecidableEq, Repr

/-- The function `generate_notifications_from_comparison` of
`src/pages/notifications.py` (lines 75-152).  `last_snapshot` is the
`ticket_data` of the latest snapshot, or `none` when
`db_manager.get_last_snapshot` found nothing: in that case (lines 80-85)
the function creates one baseline snapshot of the current tickets and
returns without diffing and without an error.  Otherwise it builds the two
lookup dicts and runs the three diff phases. -/
def generate_notifications_from_comparison
    (last_snapshot : Option (List Ticket)) (current_tickets : List Ticket) :
    RunResult :=
  match last_snapshot with
  | none => ⟨[], 1, some current_tickets, false⟩
  | some previous_tickets =>
    match build_lookup current_tickets, build_lookup previous_tickets with
    | some current_lookup, some previous_lookup =>
      let r := generate_events previous_lookup current_lookup
      ⟨r.1, 0, none, r.2⟩
    | _, _ => ⟨[], 0, none, true⟩

/-- Event classifier: a `new_ticket` event for key `k`. -/
def isNewFor (k : TKey) : Event → Bool
  | .new_ticket k' _ => decide (k' = k)
  | _ => false

/-- Event classifier: a `removed_ticket` event for key `k`. -/
def isRemovedFor (k : TKey) : Event → Bool
  | .removed_ticket k' _ => decide (k' = k)
  | _ => false

/-- Event classifier: a `field_changed` event for key `k`. -/
def isFieldChangedFor (k : TKey) : Event → Bool
  | .field_changed k' _ _ _ _ => decide (k' = k)
  | _ => false

/-- A row of the `notifications` table (`src/database/db_manager.py`,
lines 104-116); `created_at` is a timestamp in seconds. -/
structure NotificationRow where
  id : Nat
  ticket_key : String
  release_id : String
  notification_type : String
  title : String
  message : String
  is_read : Bool
  created_at : Nat
deriving DecidableEq, Repr

/-- A row of the `weekly_snapshots` table (lines 78-86). -/
structure SnapshotRow where
  id : Nat
  release_id : String
  snapshot_date : Nat
  ticket_data : List Ticket
deriving DecidableEq, Repr

/-- A row of the `convention_violations` table (lines 119-130). -/
structure ViolationRow where
  id : Nat
  ticket_key : String
  release_id : String
  violation_type : String
  detected_at : Nat
  resolved : Bool
deriving DecidableEq, Repr

/-- A row of the `jira_tickets` table (lines 43-59), restricted to the
columns the modelled operations read. -/
structure TicketRow where
  key : String
  release_id : String
  summary : Option String
  status : Option String
  assignee : Option String
  priority : Option String
  updated_date : Option Int
  last_synced : Option Int
deriving DecidableEq, Repr

/-- The persistent state handled by `DatabaseManager`, restricted to the
tables the claims touch. -/
structure DBState where
  jira_tickets : List TicketRow
  weekly_snapshots : List SnapshotRow
  notifications : List NotificationRow
  convention_violations : List ViolationRow
deriving DecidableEq, Repr

/-- The empty database produced by `_initialize_database`. -/
def emptyDB : DBState := ⟨[], [], [], []⟩

/-- Next `AUTOINCREMENT` value for the notifications table. -/
def nextNotificationId (st : DBState) : Nat :=
  st.notifications.foldr (fun n m => max n.id m) 0 + 1

/-- Next `AUTOINCREMENT` value for the weekly_snapshots table. -/
def nextSnapshotId (st : DBState) : Nat :=
  st.weekly_snapshots.foldr (fun s m => max s.id m) 0 + 1

/-
Each persistence operation takes a `db_fails` flag that models an internal
error (lost connection, constraint violation, malformed stored JSON)
occurring while the operation runs.  An operation whose Python body wraps
its work in `try/except` maps that situation to its handler's value
(`Except.ok` carrying a `false` success flag, state unchanged); an
operation without a handler maps it to `Except.error ()`, the exception
propagating to the caller.
-/

/-- `DatabaseManager.upsert_jira_ticket` (lines 176-203): `INSERT OR
REPLACE` by primary key `key` (old row deleted, new row appended); the
whole body is inside `try/except`, a failure is logged and returned as
`False`. -/
def upsert_jira_ticket (db_fails : Bool) (st : DBState) (t : TicketRow) :
    Except Unit (DBState × Bool) :=
  if db_fails then Except.ok (st, false)
  else Except.ok
    ({ st with jira_tickets :=
        st.jira_tickets.filter (fun r => !(decide (r.key = t.key))) ++ [t] }, true)

/-- Insertion step of the `ORDER BY updated_date DESC` read (SQL `NULL`
sorts below every value, hence last in descending order). -/
def insertByUpdatedDesc (t : TicketRow) : List TicketRow → List TicketRow
  | [] => [t]
  | u :: rest =>
    if u.updated_date.getD (-1) < t.updated_date.getD (-1) then t :: u :: rest
    else u :: insertByUpdatedDesc t rest

/-- Sort tickets by `updated_date` descending. -/
def sortByUpdatedDesc : List TicketRow → List TicketRow
  | [] => []
  | t :: rest => insertByUpdatedDesc t (sortByUpdatedDesc rest)

/-- `DatabaseManager.get_tickets_for_release` (lines 205-220): a plain
`SELECT` with no `try/except`, so an internal error propagates to the
caller as an exception. -/
def get_tickets_for_release (db_fails : Bool) (st : DBState)
    (release_id : String) : Except Unit (List TicketRow) :=
  if db_fails then Except.error ()
  else Except.ok
    (sortByUpdatedDesc (st.jira_tickets.filter fun t => decide (t.release_id = release_id)))

/-- `DatabaseManager.create_weekly_snapshot` (lines 254-267): appends one
snapshot row; body inside `try/except`, failure returned as `False`. -/
def create_weekly_snapshot (db_fails : Bool) (st : DBState)
    (release_id : String) (now : Nat) (tickets_data : List Ticket) :
    Except Unit (DBState × Bool) :=
  if db_fails then Except.ok (st, false)
  else Except.ok
    ({ st with weekly_snapshots :=
        st.weekly_snapshots ++ [⟨nextSnapshotId st, release_id, now, tickets_data⟩] }, true)

/-- `DatabaseManager.get_last_snapshot` (lines 269-284): `ORDER BY
snapshot_date DESC LIMIT 1`; no `try/except`, an internal error propagates
as an exception. -/
def get_last_snapshot (db_fails : Bool) (st : DBState) (release_id : String) :
    Except Unit (Option SnapshotRow) :=
  if db_fails then Except.error ()
  else Except.ok
    ((st.weekly_snapshots.filter fun s => decide (s.release_id = release_id)).foldl
      (fun acc s =>
        match acc with
        | none => some s
        | some a => if a.snapshot_date < s.snapshot_date then some s else acc)
      none)

/-- `DatabaseManager.create_notification` (lines 286-303): appends one
unread row; body inside `try/except`, failure returned as `False`. -/
def create_notification (db_fails : Bool) (st : DBState)
    (ticket_key release_id notification_type title message : String)
    (now : Nat) : Except Unit (DBState × Bool) :=
  if db_fails then Except.ok (st, false)
  else Except.ok
    ({ st with notifications :=
        st.notifications ++
          [⟨nextNotificationId st, ticket_key, release_id, notification_type,
            title, message, false, now⟩] }, true)

/-- Insertion step of the `ORDER BY created_at DESC` read. -/
def insertByCreatedDesc (n : NotificationRow) :
    List NotificationRow → List NotificationRow
  | [] => [n]
  | m :: rest =>
    if m.created_at < n.created_at then n :: m :: rest
    else m :: insertByCreatedDesc n rest

/-- Sort notifications by `created_at` descending. -/
def sortByCreatedDesc : List NotificationRow → List NotificationRow
  | [] => []
  | n :: rest => insertByCreatedDesc n (sortByCreatedDesc rest)

/-- `DatabaseManager.get_notifications` (lines 305-323): filters by
release, excludes read rows unless `show_read`, orders newest first; no
`try/except`, so an internal error propagates as an exception. -/
def get_notifications (db_fails : Bool) (st : DBState) (release_id : String)
    (show_read : Bool) : Except Unit (List NotificationRow) :=
  if db_fails then Except.error ()
  else Except.ok
    (sortByCreatedDesc (st.notifications.filter fun n =>
      decide (n.release_id = release_id) && (show_read || !n.is_read)))

/-- `DatabaseManager.mark_notification_read` (lines 325-337): `UPDATE
notifications SET is_read = TRUE WHERE id = ?` with no existence check;
body inside `try/except`, failure returned as `False`. -/
def mark_notification_read (db_fails : Bool) (st : DBState)
    (notification_id : Nat) : Except Unit (DBState × Bool) :=
  if db_fails then Except.ok (st, false)
  else Except.ok
    ({ st with notifications := st.notifications.map fun n =>
        if decide (n.id = notification_id) then { n with is_read := true } else n }, true)

/-- `SchedulerService._cleanup_old_data` (`src/services/scheduler_service.py`,
lines 115-156), on its normal path: three `DELETE` statements in one
transaction.  Notifications go when `created_at < cutoff AND is_read`,
snapshots when `snapshot_date < cutoff`, violations when
`detected_at < cutoff AND resolved`. -/
def cleanup_old_data (cutoff : Nat) (st : DBState) : DBState :=
  { st with
    notifications :=
      st.notifications.filter fun n => !(decide (n.created_at < cutoff) && n.is_read),
    weekly_snapshots :=
      st.weekly_snapshots.filter fun s => !(decide (s.snapshot_date < cutoff)),
    convention_violations :=
      st.convention_violations.filter fun v => !(decide (v.detected_at < cutoff) && v.resolved) }

/-- Observable state of `SchedulerService` (`src/services/scheduler_service.py`,
lines 18-56): the `running` flag, whether a `scheduler_thread` object has
been created, and how many background loop threads have been spawned. -/
structure SchedulerState where
  running : Bool
  scheduler_thread : Bool
  threads_spawned : Nat
deriving DecidableEq, Repr

/-- State after `SchedulerService.__init__` (lines 19-27). -/
def scheduler_init : SchedulerState := ⟨false, false, 0⟩

/-- `SchedulerService.start` (lines 43-49): guarded by `if not
self.running`; when already running nothing happens, otherwise the flag is
set and one new background thread is spawned. -/
def scheduler_start (s : SchedulerState) : SchedulerState :=
  if !s.running then ⟨true, true, s.threads_spawned + 1⟩ else s

/-- `SchedulerService.stop` (lines 51-56): clears `running` and joins the
thread with a bounded wait; no other state is touched. -/
def scheduler_stop (s : SchedulerState) : SchedulerState :=
  { s with running := false }

/-- Return value of `SystemMonitor._check_data_freshness` (lines 289-323),
reduced to the fields the spec talks about.  `errored` models the
`except` branch of lines 318-323 (for instance the `ValueError` from
`max()` when no ticket has a `last_synced` value). -/
structure FreshnessReport where
  healthy : Bool
  reason : Option String
  latest_update : Option Int
  errored : Bool
deriving DecidableEq, Repr

/-- `SystemMonitor._check_data_freshness` (lines 289-323).  With zero
tickets it returns unhealthy with an explanatory reason (lines 295-300);
otherwise it takes the newest `last_synced` among the tickets that have
one and is healthy when that is under 24 hours old (86400 seconds —
`hours_since_update < 24` over real division equals this bound). -/
def check_data_freshness (tickets : List TicketRow) (now : Int) :
    FreshnessReport :=
  if tickets.isEmpty then
    ⟨false, some "No tickets found for current release", none, false⟩
  else
    match (tickets.filterMap fun t => t.last_synced).max? with
    | none => ⟨false, none, none, true⟩
    | some latest => ⟨decide (now - latest < 86400), none, some latest, false⟩

/- Concrete data used by the witness and counterexample theorems below.
It instantiates the end-to-end scenario of the spec: ticket A-1 changes
status, B-1 is removed, C-1 is added. -/

/-- Previous version of ticket A-1. -/
def ptA : Ticket :=
  [("key", some "A-1"), ("summary", some "Ticket A"), ("status", some "To Do")]

/-- Current version of ticket A-1 (status changed). -/
def ctA : Ticket :=
  [("key", some "A-1"), ("summary", some "Ticket A"),
   ("status", some "In Progress")]

/-- Ticket B-1, present only in the previous snapshot. -/
def tB : Ticket :=
  [("key", some "B-1"), ("summary", some "Ticket B"), ("status", some "Done")]

/-- Ticket C-1, present only in the current snapshot. -/
def tC : Ticket :=
  [("key", some "C-1"), ("summary", some "Ticket C"), ("status", some "To Do")]

/-- Previous-snapshot lookup dict for the witness scenario. -/
def prevW : Lookup := [(some "A-1", ptA), (some "B-1", tB)]

/-- Current-state lookup dict for the witness scenario. -/
def curW : Lookup := [(some "A-1", ctA), (some "C-1", tC)]

/-- Ticket whose status is stored as Python `None`. -/
def ptSen : Ticket := [("status", none), ("priority", some "Low")]

/-- Ticket whose status is the literal string None. -/
def ctSen : Ticket := [("status", some "None"), ("priority", some "High")]

/-- An old unread notification (for the retention witness). -/
def nOld : NotificationRow := ⟨1, "T-1", "R-1", "new_ticket", "t", "m", false, 5⟩

/-- An old snapshot row (for the retention witness). -/
def sOld : SnapshotRow := ⟨1, "R-1", 5, []⟩

/-- An old unresolved violation row (for the retention witness). -/
def vOld : ViolationRow := ⟨1, "T-1", "R-1", "naming", 5, false⟩

/-- A database state exercising the retention job. -/
def stRet : DBState := ⟨[], [sOld], [nOld], [vOld]⟩

/-- A database state with one notification, id 1. -/
def stMark : DBState :=
  ⟨[], [], [⟨1, "T-1", "R-1", "new_ticket", "t", "m", false, 5⟩], []⟩

/- Helper lemmas about the diff phases. -/

theorem countP_congr_here {α : Type} (l : List α) (p q : α → Bool)
    (h : ∀ a ∈ l, p a = q a) : l.countP p = l.countP q := by
  induction l with
  | nil => rfl
  | cons a l ih =>
    rw [List.countP_cons, List.countP_cons, h a (List.mem_cons_self a l),
      ih fun b hb => h b (List.mem_cons_of_mem a hb)]

theorem countP_key_nodup (l : Lookup) (k : TKey)
    (hn : (l.map Prod.fst).Nodup) :
    (l.countP fun p => decide (p.1 = k)) = if (dlookup k l).isSome then 1 else 0 := by
  induction l with
  | nil => simp [dlookup]
  | cons p rest ih =>
    obtain ⟨k0, t0⟩ := p
    rw [List.map_cons, List.nodup_cons] at hn
    rw [List.countP_cons]
    by_cases hkk : k0 = k
    · subst hkk
      have hz : rest.countP (fun p => decide (p.1 = k0)) = 0 := by
        rw [List.countP_eq_zero]
        intro q hq
        simp only [decide_eq_true_eq]
        intro hqk
        apply hn.1
        have hq1 : q.1 ∈ rest.map Prod.fst := List.mem_map_of_mem Prod.fst hq
        rwa [hqk] at hq1
      simp [dlookup, hz]
    · simp [dlookup, hkk, ih hn.2]

theorem processNew_shape (prev cur : Lookup) :
    ∀ e ∈ (processNew prev cur).1, ∃ k s, e = Event.new_ticket k s := by
  induction cur with
  | nil => intro e he; simp [processNew] at he
  | cons p rest ih =>
    obtain ⟨k, t⟩ := p
    intro e he
    cases hk : (dlookup k prev).isSome with
    | true =>
      simp only [processNew, hk, if_true] at he
      exact ih e he
    | false =>
      cases hs : dlookup "summary" t with
      | none => simp [processNew, hk, hs] at he
      | some s =>
        simp only [processNew, hk, hs, Bool.false_eq_true, if_false] at he
        rcases List.mem_cons.mp he with h | h
        · exact ⟨k, s, h⟩
        · exact ih e h

theorem processRemoved_shape (cur prev : Lookup) :
    ∀ e ∈ (processRemoved cur prev).1, ∃ k s, e = Event.removed_ticket k s := by
  induction prev with
  | nil => intro e he; simp [processRemoved] at he
  | cons p rest ih =>
    obtain ⟨k, t⟩ := p
    intro e he
    cases hk : (dlookup k cur).isSome with
    | true =>
      simp only [processRemoved, hk, if_true] at he
      exact ih e he
    | false =>
      cases hs : dlookup "summary" t with
      | none => simp [processRemoved, hk, hs] at he
      | some s =>
        simp only [processRemoved, hk, hs, Bool.false_eq_true, if_false] at he
        rcases List.mem_cons.mp he with h | h
        · exact ⟨k, s, h⟩
        · exact ih e h

theorem processChanged_shape (prev cur : Lookup) :
    ∀ e ∈ (processChanged prev cur).1,
      ∃ k f ov nv s, e = Event.field_changed k f ov nv s ∧ k ∈ cur.map Prod.fst := by
  induction cur with
  | nil => intro e he; simp [processChanged] at he
  | cons p rest ih =>
    obtain ⟨k, t⟩ := p
    intro e he
    have step : ∀ h ∈ (processChanged prev rest).1,
        ∃ k' f ov nv s, h = Event.field_changed k' f ov nv s ∧
          k' ∈ ((k, t) :: rest).map Prod.fst := by
      intro h hh
      obtain ⟨k', f, ov, nv, s, rfl, hm⟩ := ih h hh
      refine ⟨k', f, ov, nv, s, rfl, ?_⟩
      rw [List.map_cons]
      exact List.mem_cons_of_mem _ hm
    cases hp : dlookup k prev with
    | none =>
      simp only [processChanged, hp] at he
      exact step e he
    | some pt =>
      cases hcmp : compare_tickets pt t with
      | nil =>
        simp only [processChanged, hp, hcmp] at he
        exact step e he
      | cons c cs =>
        cases hs : dlookup "summary" t with
        | none => simp [processChanged, hp, hcmp, hs] at he
        | some s =>
          simp only [processChanged, hp, hcmp, hs] at he
          rcases List.mem_append.mp he with h | h
          · obtain ⟨ch, _, rfl⟩ := List.mem_map.mp h
            exact ⟨k, ch.field, ch.old_value, ch.new_value, s, rfl, by simp⟩
          · exact step e h

theorem processNew_count (prev : Lookup) (cur : Lookup)
    (hs : ∀ p ∈ cur, dlookup p.1 prev = none → (dlookup "summary" p.2).isSome) :
    (processNew prev cur).2 = false ∧
    ∀ k, ((processNew prev cur).1.filter (isNewFor k)).length
        = cur.countP fun p => decide (p.1 = k) && (dlookup p.1 prev).isNone := by
  induction cur with
  | nil => exact ⟨rfl, fun k => by simp [processNew]⟩
  | cons p rest ih =>
    obtain ⟨k0, t0⟩ := p
    have hrest := ih fun q hq => hs q (List.mem_cons_of_mem _ hq)
    cases hk : dlookup k0 prev with
    | some v =>
      have heq : processNew prev ((k0, t0) :: rest) = processNew prev rest := by
        simp [processNew, hk]
      rw [heq]
      refine ⟨hrest.1, fun k => ?_⟩
      rw [hrest.2 k, List.countP_cons]
      simp [hk]
    | none =>
      have hsum := hs (k0, t0) (List.mem_cons_self _ _) hk
      obtain ⟨s, hsv⟩ := Option.isSome_iff_exists.mp hsum
      have heq : processNew prev ((k0, t0) :: rest)
          = (Event.new_ticket k0 s :: (processNew prev rest).1,
             (processNew prev rest).2) := by
        simp [processNew, hk, hsv]
      rw [heq]
      refine ⟨hrest.1, fun k => ?_⟩
      rw [List.countP_cons]
      by_cases hkk : k0 = k
      · subst hkk
        simp [isNewFor, List.filter_cons, hrest.2 k0, hk]
      · simp [isNewFor, List.filter_cons, hkk, hrest.2 k, hk]

theorem processRemoved_count (cur : Lookup) (prev : Lookup)
    (hs : ∀ p ∈ prev, dlookup p.1 cur = none → (dlookup "summary" p.2).isSome) :
    (processRemoved cur prev).2 = false ∧
    ∀ k, ((processRemoved cur prev).1.filter (isRemovedFor k)).length
        = prev.countP fun p => decide (p.1 = k) && (dlookup p.1 cur).isNone := by
  induction prev with
  | nil => exact ⟨rfl, fun k => by simp [processRemoved]⟩
  | cons p rest ih =>
    obtain ⟨k0, t0⟩ := p
    have hrest := ih fun q hq => hs q (List.mem_cons_of_mem _ hq)
    cases hk : dlookup k0 cur with
    | some v =>
      have heq : processRemoved cur ((k0, t0) :: rest) = processRemoved cur rest := by
        simp [processRemoved, hk]
      rw [heq]
      refine ⟨hrest.1, fun k => ?_⟩
      rw [hrest.2 k, List.countP_cons]
      simp [hk]
    | none =>
      have hsum := hs (k0, t0) (List.mem_cons_self _ _) hk
      obtain ⟨s, hsv⟩ := Option.isSome_iff_exists.mp hsum
      have heq : processRemoved cur ((k0, t0) :: rest)
          = (Event.removed_ticket k0 s :: (processRemoved cur rest).1,
             (processRemoved cur rest).2) := by
        simp [processRemoved, hk, hsv]
      rw [heq]
      refine ⟨hrest.1, fun k => ?_⟩
      rw [List.countP_cons]
      by_cases hkk : k0 = k
      · subst hkk
        simp [isRemovedFor, List.filter_cons, hrest.2 k0, hk]
      · simp [isRemovedFor, List.filter_cons, hkk, hrest.2 k, hk]

theorem processChanged_no_error (prev : Lookup) (cur : Lookup)
    (hs : ∀ p ∈ cur, (dlookup "summary" p.2).isSome) :
    (processChanged prev cur).2 = false := by
  induction cur with
  | nil => rfl
  | cons p rest ih =>
    obtain ⟨k0, t0⟩ := p
    have hrest := ih fun q hq => hs q (List.mem_cons_of_mem _ hq)
    cases hp : dlookup k0 prev with
    | none => simpa [processChanged, hp] using hrest
    | some pt =>
      cases hcmp : compare_tickets pt t0 with
      | nil => simpa [processChanged, hp, hcmp] using hrest
      | cons c cs =>
        obtain ⟨s, hsv⟩ := Option.isSome_iff_exists.mp
          (hs (k0, t0) (List.mem_cons_self _ _))
        simpa [processChanged, hp, hcmp, hsv] using hrest

theorem generate_events_eq (prev cur : Lookup)
    (h1 : (processNew prev cur).2 = false)
    (h2 : (processRemoved cur prev).2 = false) :
    generate_events prev cur
      = ((processNew prev cur).1 ++ (processRemoved cur prev).1
          ++ (processChanged prev cur).1,
         (processChanged prev cur).2) := by
  simp only [generate_events, h1, h2, Bool.false_eq_true, if_false]

theorem filter_new_processRemoved (cur prev : Lookup) (k : TKey) :
    (processRemoved cur prev).1.filter (isNewFor k) = [] := by
  rw [List.filter_eq_nil_iff]
  intro e he
  obtain ⟨k', s, rfl⟩ := processRemoved_shape cur prev e he
  simp [isNewFor]

theorem filter_new_processChanged (prev cur : Lookup) (k : TKey) :
    (processChanged prev cur).1.filter (isNewFor k) = [] := by
  rw [List.filter_eq_nil_iff]
  intro e he
  obtain ⟨k', f, ov, nv, s, rfl, _⟩ := processChanged_shape prev cur e he
  simp [isNewFor]

theorem filter_removed_processNew (prev cur : Lookup) (k : TKey) :
    (processNew prev cur).1.filter (isRemovedFor k) = [] := by
  rw [List.filter_eq_nil_iff]
  intro e he
  obtain ⟨k', s, rfl⟩ := processNew_shape prev cur e he
  simp [isRemovedFor]

theorem filter_removed_processChanged (prev cur : Lookup) (k : TKey) :
    (processChanged prev cur).1.filter (isRemovedFor k) = [] := by
  rw [List.filter_eq_nil_iff]
  intro e he
  obtain ⟨k', f, ov, nv, s, rfl, _⟩ := processChanged_shape prev cur e he
  simp [isRemovedFor]

theorem filter_fc_processNew (prev cur : Lookup) (k : TKey) :
    (processNew prev cur).1.filter (isFieldChangedFor k) = [] := by
  rw [List.filter_eq_nil_iff]
  intro e he
  obtain ⟨k', s, rfl⟩ := processNew_shape prev cur e he
  simp [isFieldChangedFor]

theorem filter_fc_processRemoved (cur prev : Lookup) (k : TKey) :
    (processRemoved cur prev).1.filter (isFieldChangedFor k) = [] := by
  rw [List.filter_eq_nil_iff]
  intro e he
  obtain ⟨k', s, rfl⟩ := processRemoved_shape cur prev e he
  simp [isFieldChangedFor]

theorem filter_fc_processChanged_not_mem (prev cur : Lookup) (k : TKey)
    (hk : k ∉ cur.map Prod.fst) :
    (processChanged prev cur).1.filter (isFieldChangedFor k) = [] := by
  rw [List.filter_eq_nil_iff]
  intro e he
  obtain ⟨k', f, ov, nv, s, rfl, hmem⟩ := processChanged_shape prev cur e he
  simp only [isFieldChangedFor, decide_eq_true_eq]
  intro h
  exact hk (h ▸ hmem)

theorem countP_and_isNone (l : Lookup) (prev : Lookup) (k : TKey)
    (hn : (l.map Prod.fst).Nodup) :
    (l.countP fun p => decide (p.1 = k) && (dlookup p.1 prev).isNone)
      = if (dlookup k l).isSome ∧ dlookup k prev = none then 1 else 0 := by
  have hcg : (l.countP fun p => decide (p.1 = k) && (dlookup p.1 prev).isNone)
      = l.countP fun p => decide (p.1 = k) && (dlookup k prev).isNone := by
    apply countP_congr_here
    intro a _
    by_cases hak : a.1 = k
    · rw [hak]
    · simp [hak]
  rw [hcg]
  cases hkp : dlookup k prev with
  | none =>
    simp only [Option.isNone_none, Bool.and_true]
    rw [countP_key_nodup l k hn]
    simp
  | some v =>
    simp only [Option.isNone_some, Bool.and_false]
    simp [List.countP_eq_zero]

theorem filter_fc_map_self (k : TKey) (s : Option String) (l : List Change) :
    (l.map fun ch => Event.field_changed k ch.field ch.old_value ch.new_value s).filter
        (isFieldChangedFor k)
      = l.map fun ch => Event.field_changed k ch.field ch.old_value ch.new_value s := by
  induction l with
  | nil => rfl
  | cons c cs ih => simp [List.filter_cons, isFieldChangedFor, ih]

theorem filter_fc_map_other (k k0 : TKey) (hne : k0 ≠ k) (s : Option String)
    (l : List Change) :
    (l.map fun ch => Event.field_changed k0 ch.field ch.old_value ch.new_value s).filter
        (isFieldChangedFor k) = [] := by
  induction l with
  | nil => rfl
  | cons c cs ih => simp [List.filter_cons, isFieldChangedFor, hne, ih]

theorem processChanged_filter (prev : Lookup) (k : TKey) (pt : Ticket)
    (hp : dlookup k prev = some pt) :
    ∀ cur : Lookup, (∀ p ∈ cur, (dlookup "summary" p.2).isSome) →
      (cur.map Prod.fst).Nodup →
      ∀ ct : Ticket, dlookup k cur = some ct →
      (processChanged prev cur).1.filter (isFieldChangedFor k)
        = (compare_tickets pt ct).map fun c =>
            Event.field_changed k c.field c.old_value c.new_value
              (dictGet ct "summary") := by
  intro cur
  induction cur with
  | nil =>
    intro _ _ ct hct
    simp [dlookup] at hct
  | cons p rest ih =>
    intro hs hn ct hct
    obtain ⟨k0, t0⟩ := p
    rw [List.map_cons, List.nodup_cons] at hn
    by_cases hkk : k0 = k
    · subst hkk
      obtain rfl : ct = t0 := by simpa [dlookup] using hct.symm
      cases hcmp : compare_tickets pt ct with
      | nil =>
        have heq : processChanged prev ((k0, ct) :: rest)
            = processChanged prev rest := by
          simp [processChanged, hp, hcmp]
        rw [heq, filter_fc_processChanged_not_mem prev rest k0 hn.1]
        simp
      | cons c cs =>
        obtain ⟨s, hsv⟩ := Option.isSome_iff_exists.mp
          (hs (k0, ct) (List.mem_cons_self _ _))
        have heq : processChanged prev ((k0, ct) :: rest)
            = (((c :: cs).map fun ch =>
                  Event.field_changed k0 ch.field ch.old_value ch.new_value s)
                ++ (processChanged prev rest).1,
               (processChanged prev rest).2) := by
          simp [processChanged, hp, hcmp, hsv]
        have hds : dictGet ct "summary" = s := by
          simp [dictGet, hsv]
        rw [heq]
        simp only [List.filter_append, filter_fc_map_self,
          filter_fc_processChanged_not_mem prev rest k0 hn.1, List.append_nil, hds]
    · have hct' : dlookup k rest = some ct := by
        simpa [dlookup, hkk] using hct
      have hrest := ih (fun q hq => hs q (List.mem_cons_of_mem _ hq)) hn.2 ct hct'
      cases hp0 : dlookup k0 prev with
      | none =>
        have heq : processChanged prev ((k0, t0) :: rest)
            = processChanged prev rest := by
          simp [processChanged, hp0]
        rw [heq]
        exact hrest
      | some pt0 =>
        cases hcmp0 : compare_tickets pt0 t0 with
        | nil =>
          have heq : processChanged prev ((k0, t0) :: rest)
              = processChanged prev rest := by
            simp [processChanged, hp0, hcmp0]
          rw [heq]
          exact hrest
        | cons c cs =>
          obtain ⟨s, hsv⟩ := Option.isSome_iff_exists.mp
            (hs (k0, t0) (List.mem_cons_self _ _))
          have heq : processChanged prev ((k0, t0) :: rest)
              = (((c :: cs).map fun ch =>
                    Event.field_changed k0 ch.field ch.old_value ch.new_value s)
                  ++ (processChanged prev rest).1,
                 (processChanged prev rest).2) := by
            simp [processChanged, hp0, hcmp0, hsv]
          rw [heq]
          rw [List.filter_append, filter_fc_map_other k k0 hkk s (c :: cs),
            List.nil_append]
          exact hrest

theorem filterMap_if_eq_filter_map {α β : Type} (p : α → Prop) [DecidablePred p]
    (f : α → β) (l : List α) :
    (l.filterMap fun a => if p a then some (f a) else none)
      = (l.filter fun a => decide (p a)).map f := by
  induction l with
  | nil => rfl
  | cons a l ih =>
    by_cases h : p a
    · simp [List.filterMap_cons, List.filter_cons, h, ih]
    · simp [List.filterMap_cons, List.filter_cons, h, ih]

theorem compare_tickets_eq_filter (pt ct : Ticket) :
    compare_tickets pt ct
      = (fields_to_check.filter fun f =>
          decide (normalizeNone (dictGet pt f) ≠ normalizeNone (dictGet ct f))).map
          fun f => Change.mk f (normalizeNone (dictGet pt f))
            (normalizeNone (dictGet ct f)) := by
  exact filterMap_if_eq_filter_map
    (fun f => normalizeNone (dictGet pt f) ≠ normalizeNone (dictGet ct f))
    (fun f => Change.mk f (normalizeNone (dictGet pt f))
      (normalizeNone (dictGet ct f)))
    fields_to_check

/- Claim theorems. -/

/-- C1 (amended): for ticket maps (distinct keys) in which every ticket on
one side only has a `summary` entry, one diff run emits exactly one
`new_ticket` event for each key in current but not in previous, exactly
one `removed_ticket` event for each key in previous but not in current,
and no ticket key gets events of both kinds.  The `summary` hypotheses are
forced by the subscript read in the event metadata (see
`diff_new_removed_exact_cex`). -/
theorem diff_new_removed_exact (previous_lookup current_lookup : Lookup)
    (hn_cur : (current_lookup.map Prod.fst).Nodup)
    (hn_prev : (previous_lookup.map Prod.fst).Nodup)
    (hs_new : ∀ p ∈ current_lookup, dlookup p.1 previous_lookup = none →
      (dlookup "summary" p.2).isSome)
    (hs_rem : ∀ p ∈ previous_lookup, dlookup p.1 current_lookup = none →
      (dlookup "summary" p.2).isSome)
    (k : TKey) :
    (((generate_events previous_lookup current_lookup).1.filter
        (isNewFor k)).length
      = if (dlookup k current_lookup).isSome ∧ dlookup k previous_lookup = none
        then 1 else 0) ∧
    (((generate_events previous_lookup current_lookup).1.filter
        (isRemovedFor k)).length
      = if (dlookup k previous_lookup).isSome ∧ dlookup k current_lookup = none
        then 1 else 0) ∧
    ¬(0 < ((generate_events previous_lookup current_lookup).1.filter
        (isNewFor k)).length ∧
      0 < ((generate_events previous_lookup current_lookup).1.filter
        (isRemovedFor k)).length) := by
  have h1 := processNew_count previous_lookup current_lookup hs_new
  have h2 := processRemoved_count current_lookup previous_lookup hs_rem
  have hg := generate_events_eq previous_lookup current_lookup h1.1 h2.1
  have hnew : ((generate_events previous_lookup current_lookup).1.filter
      (isNewFor k)).length
      = if (dlookup k current_lookup).isSome ∧ dlookup k previous_lookup = none
        then 1 else 0 := by
    rw [hg]
    simp only [List.filter_append, List.length_append,
      filter_new_processRemoved, filter_new_processChanged, List.length_nil,
      Nat.add_zero]
    rw [h1.2 k, countP_and_isNone current_lookup previous_lookup k hn_cur]
  have hrem : ((generate_events previous_lookup current_lookup).1.filter
      (isRemovedFor k)).length
      = if (dlookup k previous_lookup).isSome ∧ dlookup k current_lookup = none
        then 1 else 0 := by
    rw [hg]
    simp only [List.filter_append, List.length_append,
      filter_removed_processNew, filter_removed_processChanged, List.length_nil,
      Nat.add_zero, Nat.zero_add]
    rw [h2.2 k, countP_and_isNone previous_lookup current_lookup k hn_prev]
  refine ⟨hnew, hrem, ?_⟩
  rintro ⟨ha, hb⟩
  rw [hnew] at ha
  rw [hrem] at hb
  by_cases hc1 : (dlookup k current_lookup).isSome = true ∧
      dlookup k previous_lookup = none
  · by_cases hc2 : (dlookup k previous_lookup).isSome = true ∧
        dlookup k current_lookup = none
    · rw [hc1.2] at hc2
      simp at hc2
    · rw [if_neg hc2] at hb
      omega
  · rw [if_neg hc1] at ha
    omega

/-- C1 counterexample: a current map holding one new ticket without a
`summary` key.  The claim demands one `new_ticket` event for key NT-1;
the code raises `KeyError` on the metadata read, the handler catches it,
and zero events are created. -/
theorem diff_new_removed_exact_cex :
    ((generate_events [] [(some "NT-1", [("status", some "Open")])]).1.filter
        (isNewFor (some "NT-1"))).length = 0 ∧
    (dlookup (some "NT-1")
        ([(some "NT-1", [("status", some "Open")])] : Lookup)).isSome = true ∧
    dlookup (some "NT-1") ([] : Lookup) = none ∧
    (generate_events [] [(some "NT-1", [("status", some "Open")])]).2 = true := by
  decide

/-- C1 witness: in the end-to-end scenario the one genuinely new key C-1
gets exactly one `new_ticket` event. -/
theorem diff_new_removed_exact_witness :
    (curW.map Prod.fst).Nodup ∧
    ((generate_events prevW curW).1.filter (isNewFor (some "C-1"))).length
      = if (dlookup (some "C-1") curW).isSome ∧ dlookup (some "C-1") prevW = none
        then 1 else 0 :=
  ⟨by decide, (diff_new_removed_exact prevW curW (by decide) (by decide)
    (by decide) (by decide) (some "C-1")).1⟩

/-- C2 (amended): for a ticket key present in both maps, when every ticket
carries a `summary` entry the `field_changed` events for that key are
exactly one event per watched field whose normalised values differ,
carrying that field name and the normalised old and new values; in
particular zero events when no watched field differs and exactly one when
exactly one differs.  Without a `summary` entry on the current ticket the
emission raises instead (see `field_changed_per_ticket_cex`). -/
theorem field_changed_per_ticket (previous_lookup current_lookup : Lookup)
    (hn_cur : (current_lookup.map Prod.fst).Nodup)
    (hs_prev : ∀ p ∈ previous_lookup, (dlookup "summary" p.2).isSome)
    (hs_cur : ∀ p ∈ current_lookup, (dlookup "summary" p.2).isSome)
    (k : TKey) (pt ct : Ticket)
    (hp : dlookup k previous_lookup = some pt)
    (hc : dlookup k current_lookup = some ct) :
    (generate_events previous_lookup current_lookup).1.filter
        (isFieldChangedFor k)
      = (compare_tickets pt ct).map (fun c =>
          Event.field_changed k c.field c.old_value c.new_value
            (dictGet ct "summary")) ∧
    compare_tickets pt ct
      = (fields_to_check.filter fun f =>
          decide (normalizeNone (dictGet pt f) ≠ normalizeNone (dictGet ct f))).map
          fun f => Change.mk f (normalizeNone (dictGet pt f))
            (normalizeNone (dictGet ct f)) := by
  have h1 := processNew_count previous_lookup current_lookup
    fun p hp2 _ => hs_cur p hp2
  have h2 := processRemoved_count current_lookup previous_lookup
    fun p hp2 _ => hs_prev p hp2
  have hg := generate_events_eq previous_lookup current_lookup h1.1 h2.1
  refine ⟨?_, compare_tickets_eq_filter pt ct⟩
  rw [hg]
  simp only [List.filter_append, filter_fc_processNew, filter_fc_processRemoved,
    List.nil_append]
  exact processChanged_filter previous_lookup k pt hp current_lookup hs_cur
    hn_cur ct hc

/-- C2 counterexample: key CH-1 is in both maps and exactly one watched
field (`summary`) differs after normalisation, yet zero `field_changed`
events are emitted: the metadata read of the missing current `summary` key
raises, the handler catches, and the run aborts with no events. -/
theorem field_changed_per_ticket_cex :
    compare_tickets [("summary", some "X")] [("reporter", some "bob")]
      = [⟨"summary", "X", "None"⟩] ∧
    generate_events [(some "CH-1", [("summary", some "X")])]
        [(some "CH-1", [("reporter", some "bob")])]
      = ([], true) := by
  decide

/-- C2 witness: ticket A-1 of the end-to-end scenario gets exactly the one
status-change event. -/
theorem field_changed_per_ticket_witness :
    dlookup (some "A-1") prevW = some ptA ∧
    dlookup (some "A-1") curW = some ctA ∧
    (generate_events prevW curW).1.filter (isFieldChangedFor (some "A-1"))
      = (compare_tickets ptA ctA).map (fun c =>
          Event.field_changed (some "A-1") c.field c.old_value c.new_value
            (dictGet ctA "summary")) :=
  ⟨by decide, by decide,
    (field_changed_per_ticket prevW curW (by decide) (by decide) (by decide)
      (some "A-1") ptA ctA (by decide) (by decide)).1⟩

/-- C3: with no prior snapshot, one run of
`generate_notifications_from_comparison` emits zero events, issues exactly
one baseline snapshot creation holding the current tickets, and does not
report an error. -/
theorem baseline_snapshot_run (current_tickets : List Ticket) :
    generate_notifications_from_comparison none current_tickets
      = ⟨[], 1, some current_tickets, false⟩ := rfl

/-- A Boolean delete guard, read back as a proposition. -/
theorem bool_guard_iff (P : Prop) [Decidable P] (b : Bool) :
    (!(decide P && b)) = true ↔ ¬(P ∧ b = true) := by
  cases b <;> by_cases h : P <;> simp [h]

/-- C4: the retention job deletes exactly the read notifications older
than the cutoff, the snapshots older than the cutoff, and the resolved
violations older than the cutoff; unread notifications and unresolved
violations of any age always survive. -/
theorem cleanup_retention_exact (cutoff : Nat) (st : DBState)
    (n : NotificationRow) (s : SnapshotRow) (v : ViolationRow) :
    (n ∈ (cleanup_old_data cutoff st).notifications
      ↔ n ∈ st.notifications ∧ ¬(n.created_at < cutoff ∧ n.is_read = true)) ∧
    (s ∈ (cleanup_old_data cutoff st).weekly_snapshots
      ↔ s ∈ st.weekly_snapshots ∧ ¬s.snapshot_date < cutoff) ∧
    (v ∈ (cleanup_old_data cutoff st).convention_violations
      ↔ v ∈ st.convention_violations ∧ ¬(v.detected_at < cutoff ∧ v.resolved = true)) ∧
    (n.is_read = false → n ∈ st.notifications →
      n ∈ (cleanup_old_data cutoff st).notifications) ∧
    (v.resolved = false → v ∈ st.convention_violations →
      v ∈ (cleanup_old_data cutoff st).convention_violations) := by
  unfold cleanup_old_data
  refine ⟨?_, ?_, ?_, ?_, ?_⟩
  · rw [List.mem_filter, bool_guard_iff]
  · rw [List.mem_filter]
    simp
  · rw [List.mem_filter, bool_guard_iff]
  · intro hr hm
    rw [List.mem_filter]
    exact ⟨hm, by simp [hr]⟩
  · intro hr hm
    rw [List.mem_filter]
    exact ⟨hm, by simp [hr]⟩

/-- C4 witness: an unread notification far older than the cutoff survives
the retention job. -/
theorem cleanup_retention_exact_witness :
    nOld.is_read = false ∧ nOld.created_at < 100 ∧ nOld ∈ stRet.notifications ∧
    nOld ∈ (cleanup_old_data 100 stRet).notifications :=
  ⟨rfl, by decide, by decide,
    (cleanup_retention_exact 100 stRet nOld sOld vOld).2.2.2.1 rfl (by decide)⟩

/-- C5 (amended): the watched-field comparison itself never raises
(missing and null watched fields become the sentinel), and a diff run
raises no exception provided every ticket has a `summary` entry; a ticket
lacking `summary` makes the metadata subscript raise `KeyError` (see
`diff_no_exception_cex`), which the blanket handler catches, aborting the
rest of the run. -/
theorem diff_no_exception_with_summary (previous_lookup current_lookup : Lookup)
    (hs_prev : ∀ p ∈ previous_lookup, (dlookup "summary" p.2).isSome)
    (hs_cur : ∀ p ∈ current_lookup, (dlookup "summary" p.2).isSome) :
    (generate_events previous_lookup current_lookup).2 = false := by
  have h1 := processNew_count previous_lookup current_lookup
    fun p hp2 _ => hs_cur p hp2
  have h2 := processRemoved_count current_lookup previous_lookup
    fun p hp2 _ => hs_prev p hp2
  rw [generate_events_eq previous_lookup current_lookup h1.1 h2.1]
  exact processChanged_no_error previous_lookup current_lookup hs_cur

/-- C5 counterexample: a new ticket with a missing `summary` key (and a
missing watched `status`.. handled fine) makes the run raise: the claim
says processing proceeds with the sentinel, but the run errors and emits
nothing. -/
theorem diff_no_exception_cex :
    generate_events [] [(some "T-9", [("priority", some "High")])]
      = ([], true) := by decide

/-- C5 witness: a full diff over the scenario data (all tickets carry
`summary`) finishes without an exception. -/
theorem diff_no_exception_with_summary_witness :
    (dlookup "summary" tC).isSome = true ∧
    (generate_events prevW curW).2 = false :=
  ⟨by decide, diff_no_exception_with_summary prevW curW (by decide) (by decide)⟩

/-- C6 (amended): the mutation operations (upsert ticket, create
notification, mark read, create snapshot) recover internal errors and
return a boolean failure, but the read operations (get_notifications,
get_tickets_for_release, get_last_snapshot) have no handler at the store
boundary and propagate an internal error to the caller as an exception. -/
theorem persistence_error_recovery (fails : Bool) (st : DBState) (t : TicketRow)
    (tk rid ntype title message sr : String) (now nid snap_ts : Nat)
    (td : List Ticket) (b : Bool) :
    (∃ out, upsert_jira_ticket fails st t = Except.ok out) ∧
    (∃ out, create_notification fails st tk rid ntype title message now
      = Except.ok out) ∧
    (∃ out, mark_notification_read fails st nid = Except.ok out) ∧
    (∃ out, create_weekly_snapshot fails st rid snap_ts td = Except.ok out) ∧
    get_notifications true st sr b = Except.error () ∧
    get_tickets_for_release true st sr = Except.error () ∧
    get_last_snapshot true st sr = Except.error () := by
  cases fails <;>
    exact ⟨⟨_, rfl⟩, ⟨_, rfl⟩, ⟨_, rfl⟩, ⟨_, rfl⟩, rfl, rfl, rfl⟩

/-- C6 counterexample: listing notifications while the store fails
internally raises to the caller instead of returning an empty result or a
failure flag. -/
theorem get_notifications_error_cex :
    get_notifications true emptyDB "R-1" false = Except.error () := rfl

/-- C7: starting a running scheduler and stopping a stopped one are
no-ops, a double start spawns exactly one background thread from the
initial state, and the state machine only moves between Running
(`running = true`) and Stopped (`running = false`). -/
theorem scheduler_start_stop_idempotent (s : SchedulerState) :
    (s.running = true → scheduler_start s = s) ∧
    (s.running = false → scheduler_stop s = s) ∧
    scheduler_start (scheduler_start s) = scheduler_start s ∧
    (scheduler_start (scheduler_start scheduler_init)).threads_spawned = 1 ∧
    (scheduler_start s).running = true ∧
    (scheduler_stop s).running = false := by
  obtain ⟨r, th, n⟩ := s
  cases r <;> simp [scheduler_start, scheduler_stop, scheduler_init]

/-- C7 witness: start on the started scheduler is a no-op. -/
theorem scheduler_start_stop_idempotent_witness :
    (scheduler_start scheduler_init).running = true ∧
    scheduler_start (scheduler_start scheduler_init)
      = scheduler_start scheduler_init :=
  ⟨rfl, (scheduler_start_stop_idempotent (scheduler_start scheduler_init)).1 rfl⟩

/-- C8: with zero tickets for the current release, the data-freshness
check reports unhealthy together with the explanatory reason string, not a
bare false. -/
theorem freshness_zero_tickets (now : Int) :
    check_data_freshness [] now
      = ⟨false, some "No tickets found for current release", none, false⟩ ∧
    (check_data_freshness [] now).reason ≠ none :=
  ⟨rfl, by simp [check_data_freshness]⟩

/-- C9: a watched field moving between the absent/null value and the
literal string None (either direction) produces no change entry for that
field: both sides normalise to the same sentinel before comparison. -/
theorem sentinel_collision (pt ct : Ticket) (f : String)
    (hf : f ∈ fields_to_check)
    (h : (dictGet pt f = none ∧ dictGet ct f = some "None") ∨
         (dictGet pt f = some "None" ∧ dictGet ct f = none)) :
    (compare_tickets pt ct).filter (fun c => decide (c.field = f)) = [] := by
  rw [List.filter_eq_nil_iff]
  intro c hcmem
  rw [compare_tickets_eq_filter] at hcmem
  obtain ⟨g, hg, rfl⟩ := List.mem_map.mp hcmem
  simp only [decide_eq_true_eq]
  intro hcf
  have hgf : g = f := hcf
  subst hgf
  have hmem := List.mem_filter.mp hg
  have hne : normalizeNone (dictGet pt g) ≠ normalizeNone (dictGet ct g) := by
    simpa using hmem.2
  rcases h with ⟨h1, h2⟩ | ⟨h1, h2⟩
  · rw [h1, h2] at hne
    simp [normalizeNone] at hne
  · rw [h1, h2] at hne
    simp [normalizeNone] at hne

/-- C9 witness: status moves from null to the string None and yields no
status change entry, even though the comparison of the same pair is not
empty (priority did change). -/
theorem sentinel_collision_witness :
    "status" ∈ fields_to_check ∧
    dictGet ptSen "status" = none ∧
    dictGet ctSen "status" = some "None" ∧
    (compare_tickets ptSen ctSen).filter (fun c => decide (c.field = "status")) = [] ∧
    compare_tickets ptSen ctSen ≠ [] :=
  ⟨by decide, by decide, by decide,
    sentinel_collision ptSen ctSen "status" (by decide)
      (Or.inl ⟨by decide, by decide⟩),
    by decide⟩

/-- Mapping the mark-read update over rows none of which has the id is the
identity. -/
theorem map_mark_id (l : List NotificationRow) (nid : Nat)
    (h : ∀ n ∈ l, n.id ≠ nid) :
    (l.map fun n => if decide (n.id = nid) then { n with is_read := true } else n)
      = l := by
  induction l with
  | nil => rfl
  | cons a l ih =>
    have ha := h a (List.mem_cons_self a l)
    rw [List.map_cons, ih fun n hn => h n (List.mem_cons_of_mem a hn)]
    simp [ha]

/-- C10: under normal operation `mark_notification_read` returns success
for every id, with no existence check; when no stored notification has the
id, the table is left unchanged. -/
theorem mark_read_no_existence_check (st : DBState) (nid : Nat) :
    (∃ st2, mark_notification_read false st nid = Except.ok (st2, true)) ∧
    ((∀ n ∈ st.notifications, n.id ≠ nid) →
      mark_notification_read false st nid = Except.ok (st, true)) := by
  constructor
  · exact ⟨_, rfl⟩
  · intro h
    simp only [mark_notification_read, Bool.false_eq_true, if_false]
    rw [map_mark_id st.notifications nid h]

/-- C10 witness: marking the absent id 42 as read succeeds and leaves the
table unchanged. -/
theorem mark_read_no_existence_check_witness :
    (∀ n ∈ stMark.notifications, n.id ≠ 42) ∧
    mark_notification_read false stMark 42 = Except.ok (stMark, true) :=
  ⟨by decide, (mark_read_no_existence_check stMark 42).2 (by decide)⟩

end ReleaseManager
